import Mathlib

/-!
Verification of the vote-casting and OTP protocol of the VoteSecure web
application.  The definitions below are a shallow embedding of the
repository's code: the `otp_requests` / `votes` tables and their SQL
constraints, the `verify-otp` and `send-otp` edge functions, the
`handleVoteSubmit` handler of the vote page, and the receipt lookup of the
receipt page.  Timestamps are millisecond epochs (`Int`), the salted hash
is an explicit function parameter, and external collaborators (messaging
providers, the row insert outcome) are explicit inputs.
-/

namespace VoteSecure

/-- Delivery channel for one-time passcodes (SQL enum `otp_channel`). -/
inductive Channel
  | email
  | sms
  | both
deriving DecidableEq

/-- Election status (SQL enum `election_status`). -/
inductive ElectionStatus
  | draft
  | upcoming
  | active
  | ended
deriving DecidableEq

/-- Audit event type (SQL enum `audit_event_type`). -/
inductive AuditEvent
  | user_registered
  | user_login
  | otp_sent
  | otp_verified
  | otp_failed
  | vote_cast
  | election_created
  | election_updated
  | candidate_added
  | admin_action
deriving DecidableEq

/-- The structured `details` JSON payloads written by the two edge
functions: a bare reason, a reason with a remaining-attempts count, a
channel, or the send report with per-channel flags and error strings. -/
inductive AuditDetails
  | reason (r : String)
  | reasonRemaining (r : String) (remaining_attempts : Int)
  | channel (c : Channel)
  | sent (c : Channel) (email_sent sms_sent : Bool) (errors : List String)
deriving DecidableEq

/-- A row of `audit_logs`. -/
structure AuditEntry where
  event_type : AuditEvent
  user_id : Option String
  details : AuditDetails
deriving DecidableEq

/-- A row of `profiles` (the voter record; fields this core reads). -/
structure Profile where
  id : String
  email : String
  phone : Option String
  verified : Bool
deriving DecidableEq

/-- A row of `elections`. -/
structure Election where
  id : String
  title : String
  status : ElectionStatus
  start_time : Int
  end_time : Int
deriving DecidableEq

/-- A row of `candidates`. -/
structure Candidate where
  id : String
  election_id : String
  name : String
  position : Int
deriving DecidableEq

/-- A row of `votes`. -/
structure Vote where
  id : Nat
  election_id : String
  candidate_id : String
  user_id : String
  ballot_token : String
  cast_at : Int
deriving DecidableEq

/-- A row of `otp_requests`. -/
structure OtpRequest where
  id : Nat
  user_id : String
  otp_hash : String
  expires_at : Int
  attempts : Nat
  max_attempts : Nat
  delivery_channel : Channel
  verified : Bool
  created_at : Int
deriving DecidableEq

/-- The relational store owned by the external database. -/
structure DB where
  profiles : List Profile
  elections : List Election
  candidates : List Candidate
  votes : List Vote
  otp_requests : List OtpRequest
  audit_logs : List AuditEntry
deriving DecidableEq

/-- Append an audit row (`audit_logs` insert). -/
def addAudit (db : DB) (e : AuditEntry) : DB :=
  { db with audit_logs := e :: db.audit_logs }

/-- The `/^\d\x7b6\x7d$/` format test of verify-otp. -/
def isSixDigits (s : String) : Bool :=
  s.length == 6 && s.data.all Char.isDigit

/-- The row filter of the pending-request query of verify-otp:
`user_id = u` and `verified = false`. -/
def pendingPred (u : String) (r : OtpRequest) : Bool :=
  r.user_id == u && r.verified == false

/-- All unverified requests of a voter, in table order. -/
def pendingOf (db : DB) (u : String) : List OtpRequest :=
  db.otp_requests.filter (pendingPred u)

/-- The pending-request query of verify-otp: order by `created_at`
descending, limit 1, single — the most recently created unverified
request of the voter, `none` when there is none. -/
def latestUnverified (db : DB) (u : String) : Option OtpRequest :=
  (pendingOf db u).foldl
    (fun acc r =>
      match acc with
      | none => some r
      | some b => if b.created_at < r.created_at then some r else some b)
    none

/-- The attempts update of verify-otp: set `attempts = n` on the row with
the given id. -/
def updateAttempts (db : DB) (rid : Nat) (n : Nat) : DB :=
  { db with otp_requests :=
      db.otp_requests.map fun r =>
        if r.id = rid then { r with attempts := n } else r }

/-- The verified-flag update of verify-otp on `otp_requests`. -/
def setOtpVerified (db : DB) (rid : Nat) : DB :=
  { db with otp_requests :=
      db.otp_requests.map fun r =>
        if r.id = rid then { r with verified := true } else r }

/-- The verified-flag update of verify-otp on `profiles`. -/
def setProfileVerified (db : DB) (uid : String) : DB :=
  { db with profiles :=
      db.profiles.map fun p =>
        if p.id = uid then { p with verified := true } else p }

/-- The failure taxonomy of the verify-otp responses. -/
inductive VerifyError
  | missingFields
  | invalidFormat
  | noPendingRequest
  | expired
  | attemptsExceeded
  | invalidCode (remainingAttempts : Int)
deriving DecidableEq

/-- Outcome of a verify-otp call. -/
inductive VerifyResult
  | ok
  | err (e : VerifyError)
deriving DecidableEq

/-- The `remainingAttempts` field of the JSON failure body: only the
wrong-code branch of verify-otp includes it. -/
def disclosedRemaining : VerifyResult → Option Int
  | .err (.invalidCode k) => some k
  | _ => none

/-- The body of verify-otp once a pending request `r` has been selected:
expiry check, attempts check, unconditional increment, hash comparison. -/
def verifyWith (hash : String → String) (now : Int) (db : DB)
    (userId otp : String) (r : OtpRequest) : VerifyResult × DB :=
  if r.expires_at < now then
    (.err .expired,
     addAudit db ⟨.otp_failed, some userId, .reason "expired"⟩)
  else if r.max_attempts ≤ r.attempts then
    (.err .attemptsExceeded,
     addAudit db ⟨.otp_failed, some userId, .reason "max_attempts_exceeded"⟩)
  else
    let db1 := updateAttempts db r.id (r.attempts + 1)
    let remaining : Int := (r.max_attempts : Int) - (r.attempts : Int) - 1
    if hash otp ≠ r.otp_hash then
      (.err (.invalidCode remaining),
       addAudit db1 ⟨.otp_failed, some userId,
         .reasonRemaining "invalid_otp" remaining⟩)
    else
      (.ok,
       addAudit (setProfileVerified (setOtpVerified db1 r.id) userId)
         ⟨.otp_verified, some userId, .channel r.delivery_channel⟩)

/-- The verify-otp edge function: missing-field check, format check,
pending-request selection, then `verifyWith`. -/
def verifyOtp (hash : String → String) (now : Int) (db : DB)
    (userId otp : String) : VerifyResult × DB :=
  if userId = "" ∨ otp = "" then (.err .missingFields, db)
  else if isSixDigits otp = false then (.err .invalidFormat, db)
  else
    match latestUnverified db userId with
    | none => (.err .noPendingRequest, db)
    | some r => verifyWith hash now db userId otp r

/-- Outcome reported by a messaging collaborator for one send. -/
structure SendResult where
  success : Bool
  error : Option String
deriving DecidableEq

/-- The failure taxonomy of the send-otp responses. -/
inductive SendError
  | missingFields
  | rateLimited
  | insertFailed
  | deliveryFailed (errors : List String)
deriving DecidableEq

/-- Outcome of a send-otp call; on success the response carries the
per-channel flags of the JSON `channels` object. -/
inductive SendResp
  | ok (email_sent sms_sent : Bool)
  | err (e : SendError)
deriving DecidableEq

/-- A plaintext-code transmission handed to a messaging collaborator. -/
inductive Dispatch
  | email (addr code : String)
  | sms (addr code : String)
deriving DecidableEq

/-- The E.164 normalisation of send-otp: trim, then prepend a plus sign
when absent. -/
def formatPhone (p : String) : String :=
  let t := p.trim
  if t.startsWith "+" then t else "+" ++ t

/-- Whether send-otp calls the email collaborator: the channel names
email and the request carries a truthy (nonempty) address. -/
def emailAttempted (ch : Channel) (email : Option String) : Bool :=
  (ch == Channel.email || ch == Channel.both) && email.getD "" != ""

/-- Whether send-otp calls the SMS collaborator. -/
def smsAttempted (ch : Channel) (phone : Option String) : Bool :=
  (ch == Channel.sms || ch == Channel.both) && phone.getD "" != ""

/-- The effective per-channel result: the collaborator's answer when the
channel was attempted, the all-false initial value otherwise. -/
def effResult (attempted : Bool) (res : SendResult) : SendResult :=
  if attempted then res else ⟨false, none⟩

/-- The error entry pushed for one channel: present exactly when the
effective result failed with a truthy error string. -/
def chanErr (tag : String) (res : SendResult) : List String :=
  if res.success then []
  else
    match res.error with
    | some m => if m = "" then [] else [tag ++ m]
    | none => []

/-- The rate-limit count of send-otp: rows of the voter whose
`created_at` lies within the trailing 60 minutes. -/
def recentCount (db : DB) (u : String) (now : Int) : Nat :=
  (db.otp_requests.filter fun r =>
    r.user_id == u && decide (now - 3600000 ≤ r.created_at)).length

/-- The row inserted by send-otp: attempts 0, max_attempts 3, expiry
now + 5 minutes, unverified, created now. -/
def newOtpRow (hash : String → String) (now : Int) (newId : Nat)
    (otp u : String) (ch : Channel) : OtpRequest :=
  { id := newId, user_id := u, otp_hash := hash otp,
    expires_at := now + 300000, attempts := 0, max_attempts := 3,
    delivery_channel := ch, verified := false, created_at := now }

/-- The effective email result of send-otp: the collaborator's answer on
the request's address when the channel was attempted. -/
def emailRes (emailSend : String → SendResult) (ch : Channel)
    (email : Option String) : SendResult :=
  effResult (emailAttempted ch email) (emailSend (email.getD ""))

/-- The effective SMS result of send-otp, on the E.164-formatted
request phone number. -/
def smsRes (smsSend : String → SendResult) (ch : Channel)
    (phone : Option String) : SendResult :=
  effResult (smsAttempted ch phone) (smsSend (formatPhone (phone.getD "")))

/-- The per-channel error detail list accumulated by send-otp. -/
def sendErrors (emailSend smsSend : String → SendResult) (ch : Channel)
    (email phone : Option String) : List String :=
  chanErr "Email: " (emailRes emailSend ch email) ++
  chanErr "SMS: " (smsRes smsSend ch phone)

/-- The plaintext dispatches send-otp hands to the collaborators: one
per attempted channel, addressed from the request body alone. -/
def sendDispatches (otp : String) (ch : Channel)
    (email phone : Option String) : List Dispatch :=
  (if emailAttempted ch email then [Dispatch.email (email.getD "") otp]
   else []) ++
  (if smsAttempted ch phone then
    [Dispatch.sms (formatPhone (phone.getD "")) otp]
   else [])

/-- The send-otp edge function.  `hash` is the salted hash, `otp` the
freshly generated 6-digit code, `newId` the id the store assigns,
`emailSend` / `smsSend` the messaging collaborators and `insertOk`
whether the row insert succeeds.  Returns the response, the new store
and the list of plaintext dispatches that were made. -/
def sendOtp (hash : String → String) (now : Int) (newId : Nat)
    (otp : String) (emailSend smsSend : String → SendResult)
    (insertOk : Bool) (db : DB) (userId : String)
    (channel : Option Channel) (email phone : Option String) :
    SendResp × DB × List Dispatch :=
  match channel with
  | none => (.err .missingFields, db, [])
  | some ch =>
    if userId = "" then (.err .missingFields, db, [])
    else if 5 ≤ recentCount db userId now then (.err .rateLimited, db, [])
    else if insertOk then
      ((if !(emailRes emailSend ch email).success &&
           !(smsRes smsSend ch phone).success then
          SendResp.err (.deliveryFailed
            (sendErrors emailSend smsSend ch email phone))
        else
          SendResp.ok (emailRes emailSend ch email).success
            (smsRes smsSend ch phone).success),
       addAudit
         { db with otp_requests :=
             newOtpRow hash now newId otp userId ch :: db.otp_requests }
         ⟨.otp_sent, some userId, .sent ch
           (emailRes emailSend ch email).success
           (smsRes smsSend ch phone).success
           (sendErrors emailSend smsSend ch email phone)⟩,
       sendDispatches otp ch email phone)
    else (.err .insertFailed, db, [])

/-- Outcome of the vote-page submit handler. -/
inductive CastResult
  | navigatedToReceipt (token : String)
  | alreadyVoted
  | failed
  | noOp
deriving DecidableEq

/-- The `votes` insert with its `UNIQUE (user_id, election_id)` and
`UNIQUE (ballot_token)` constraints; a violation is surfaced as the
Postgres duplicate-key error code 23505. -/
def insertVote (db : DB) (v : Vote) : Except String DB :=
  if db.votes.any fun w =>
      w.user_id == v.user_id && w.election_id == v.election_id then
    .error "23505"
  else if db.votes.any fun w => w.ballot_token == v.ballot_token then
    .error "23505"
  else .ok { db with votes := v :: db.votes }

/-- `handleVoteSubmit` of the vote page: guard on the selected candidate,
user and election ids; insert the vote with a freshly generated token;
map error code 23505 to the already-voted outcome. -/
def handleVoteSubmit (db : DB) (now : Int) (newId : Nat)
    (userId electionId candidateId token : String) : CastResult × DB :=
  if candidateId = "" ∨ userId = "" ∨ electionId = "" then (.noOp, db)
  else
    match insertVote db
      { id := newId, election_id := electionId, candidate_id := candidateId,
        user_id := userId, ballot_token := token, cast_at := now } with
    | .ok db1 => (.navigatedToReceipt token, db1)
    | .error code => if code = "23505" then (.alreadyVoted, db) else (.failed, db)

/-- The candidate query of the vote page: all candidates of the target
election, the only ones offered for selection. -/
def fetchCandidates (db : DB) (e : String) : List Candidate :=
  db.candidates.filter fun c => c.election_id == e

/-- The receipt details assembled by the receipt page. -/
structure VoteDetails where
  ballot_token : String
  cast_at : Int
  election_title : String
  candidate_name : String
deriving DecidableEq

/-- The vote query of the receipt page: filter on election id, user id
and ballot token, then `.single()` — exactly one row or nothing. -/
def fetchVoteRow (db : DB) (electionId userId token : String) : Option Vote :=
  match db.votes.filter fun v =>
      v.election_id == electionId && v.user_id == userId &&
      v.ballot_token == token with
  | [v] => some v
  | _ => none

/-- `fetchVoteDetails` of the receipt page: the matching vote row plus
the election title and candidate name with their fallbacks. -/
def fetchVoteDetails (db : DB) (electionId userId token : String) :
    Option VoteDetails :=
  (fetchVoteRow db electionId userId token).map fun v =>
    { ballot_token := v.ballot_token
      cast_at := v.cast_at
      election_title :=
        ((db.elections.find? fun e => e.id == electionId).map
          Election.title).getD "Unknown Election"
      candidate_name :=
        ((db.candidates.find? fun c => c.id == v.candidate_id).map
          Candidate.name).getD "Unknown Candidate" }

/-- The core invariant: at most one vote row per (voter, election). -/
def uniquePerVoterElection (votes : List Vote) : Prop :=
  votes.Pairwise fun a b =>
    ¬ (a.user_id = b.user_id ∧ a.election_id = b.election_id)

/-- Ballot tokens are pairwise distinct (the `UNIQUE (ballot_token)`
constraint). -/
def tokensUnique (votes : List Vote) : Prop :=
  votes.Pairwise fun a b => a.ballot_token ≠ b.ballot_token

/-! ### Helper lemmas about the store operations -/

theorem isSixDigits_ne_empty {s : String} (h : isSixDigits s = true) :
    s ≠ "" := by
  intro he
  subst he
  exact absurd h (by decide)

theorem pendingOf_addAudit (db : DB) (e : AuditEntry) (u : String) :
    pendingOf (addAudit db e) u = pendingOf db u := rfl

theorem pendingOf_setProfileVerified (db : DB) (uid u : String) :
    pendingOf (setProfileVerified db uid) u = pendingOf db u := rfl

theorem filter_map_of_pred_eq {α : Type} (f : α → α) (p : α → Bool)
    (h : ∀ a, p (f a) = p a) (l : List α) :
    (l.map f).filter p = (l.filter p).map f := by
  induction l with
  | nil => rfl
  | cons a t ih =>
    by_cases hp : p a = true
    · simp [List.filter_cons, hp, h a, ih]
    · simp only [Bool.not_eq_true] at hp
      simp [List.filter_cons, hp, h a, ih]

theorem pendingOf_updateAttempts (db : DB) (rid : Nat) (n : Nat) (u : String) :
    pendingOf (updateAttempts db rid n) u =
      (pendingOf db u).map fun r =>
        if r.id = rid then { r with attempts := n } else r := by
  unfold pendingOf updateAttempts
  refine filter_map_of_pred_eq _ _ ?_ db.otp_requests
  intro r
  by_cases h : r.id = rid <;> simp [h, pendingPred]

theorem pendingOf_setOtpVerified (db : DB) (rid : Nat) (u : String) :
    pendingOf (setOtpVerified db rid) u =
      (pendingOf db u).filter fun r => !(r.id == rid) := by
  unfold pendingOf setOtpVerified
  simp only
  induction db.otp_requests with
  | nil => rfl
  | cons a t ih =>
    by_cases h : a.id = rid
    · have h1 : pendingPred u (if a.id = rid then { a with verified := true } else a)
          = false := by
        simp [h, pendingPred]
      simp only [List.map_cons, List.filter_cons, h1]
      by_cases h2 : pendingPred u a = true
      · simp [h2, h, ih]
      · simp only [Bool.not_eq_true] at h2
        simp [h2, ih]
    · have h1 : pendingPred u (if a.id = rid then { a with verified := true } else a)
          = pendingPred u a := by simp [h]
      simp only [List.map_cons, List.filter_cons, h1]
      by_cases h2 : pendingPred u a = true
      · simp [h2, h, ih]
      · simp only [Bool.not_eq_true] at h2
        simp [h2, ih]

theorem latestUnverified_of_pending (db : DB) (u : String) (r : OtpRequest)
    (h : pendingOf db u = [r]) : latestUnverified db u = some r := by
  unfold latestUnverified
  rw [h]
  rfl

theorem latestUnverified_of_no_pending (db : DB) (u : String)
    (h : pendingOf db u = []) : latestUnverified db u = none := by
  unfold latestUnverified
  rw [h]
  rfl

/-! ### Branch lemmas for verify-otp -/

theorem verifyOtp_selects (hash : String → String) (now : Int) (db : DB)
    (u otp : String) (r : OtpRequest) (hu : u ≠ "")
    (hf : isSixDigits otp = true) (hsel : latestUnverified db u = some r) :
    verifyOtp hash now db u otp = verifyWith hash now db u otp r := by
  have hne : otp ≠ "" := isSixDigits_ne_empty hf
  unfold verifyOtp
  rw [if_neg (by simp [hu, hne]), if_neg (by simp [hf]), hsel]

theorem verifyOtp_no_pending (hash : String → String) (now : Int) (db : DB)
    (u otp : String) (hu : u ≠ "") (hf : isSixDigits otp = true)
    (hsel : latestUnverified db u = none) :
    verifyOtp hash now db u otp = (.err .noPendingRequest, db) := by
  have hne : otp ≠ "" := isSixDigits_ne_empty hf
  unfold verifyOtp
  rw [if_neg (by simp [hu, hne]), if_neg (by simp [hf]), hsel]

theorem verifyWith_expired (hash : String → String) (now : Int) (db : DB)
    (u otp : String) (r : OtpRequest) (hexp : r.expires_at < now) :
    verifyWith hash now db u otp r =
      (.err .expired,
       addAudit db ⟨.otp_failed, some u, .reason "expired"⟩) := by
  unfold verifyWith
  rw [if_pos hexp]

theorem verifyWith_exceeded (hash : String → String) (now : Int) (db : DB)
    (u otp : String) (r : OtpRequest) (hexp : ¬ r.expires_at < now)
    (hatt : r.max_attempts ≤ r.attempts) :
    verifyWith hash now db u otp r =
      (.err .attemptsExceeded,
       addAudit db ⟨.otp_failed, some u, .reason "max_attempts_exceeded"⟩) := by
  unfold verifyWith
  rw [if_neg hexp, if_pos hatt]

theorem verifyWith_wrong (hash : String → String) (now : Int) (db : DB)
    (u otp : String) (r : OtpRequest) (hexp : ¬ r.expires_at < now)
    (hatt : r.attempts < r.max_attempts) (hw : hash otp ≠ r.otp_hash) :
    verifyWith hash now db u otp r =
      (.err (.invalidCode ((r.max_attempts : Int) - (r.attempts : Int) - 1)),
       addAudit (updateAttempts db r.id (r.attempts + 1))
         ⟨.otp_failed, some u, .reasonRemaining "invalid_otp"
           ((r.max_attempts : Int) - (r.attempts : Int) - 1)⟩) := by
  unfold verifyWith
  rw [if_neg hexp, if_neg (Nat.not_le.mpr hatt)]
  simp only [ne_eq]
  rw [if_pos hw]

theorem verifyWith_correct (hash : String → String) (now : Int) (db : DB)
    (u otp : String) (r : OtpRequest) (hexp : ¬ r.expires_at < now)
    (hatt : r.attempts < r.max_attempts) (hw : hash otp = r.otp_hash) :
    verifyWith hash now db u otp r =
      (.ok,
       addAudit
         (setProfileVerified
           (setOtpVerified (updateAttempts db r.id (r.attempts + 1)) r.id) u)
         ⟨.otp_verified, some u, .channel r.delivery_channel⟩) := by
  unfold verifyWith
  rw [if_neg hexp, if_neg (Nat.not_le.mpr hatt)]
  simp only [ne_eq]
  rw [if_neg (by simp [hw])]

/-- One wrong-code call against a voter whose only pending request is
`r`: the response is invalid-code with `max_attempts - attempts - 1`
remaining, and afterwards the voter's only pending request is `r` with
its attempts counter incremented. -/
theorem verifyOtp_wrong_step (hash : String → String) (now : Int) (db : DB)
    (u otp : String) (r : OtpRequest) (hu : u ≠ "")
    (hf : isSixDigits otp = true) (hp : pendingOf db u = [r])
    (hexp : ¬ r.expires_at < now) (hatt : r.attempts < r.max_attempts)
    (hw : hash otp ≠ r.otp_hash) :
    (verifyOtp hash now db u otp).1 =
        .err (.invalidCode ((r.max_attempts : Int) - (r.attempts : Int) - 1))
    ∧ pendingOf (verifyOtp hash now db u otp).2 u =
        [{ r with attempts := r.attempts + 1 }] := by
  rw [verifyOtp_selects hash now db u otp r hu hf
        (latestUnverified_of_pending db u r hp),
      verifyWith_wrong hash now db u otp r hexp hatt hw]
  refine ⟨rfl, ?_⟩
  show pendingOf (addAudit (updateAttempts db r.id (r.attempts + 1)) _) u = _
  rw [pendingOf_addAudit, pendingOf_updateAttempts, hp]
  simp

/-! ### Example fixtures used by witnesses and counterexamples -/

/-- A concrete salted hash used to instantiate the hash parameter. -/
def exHash (s : String) : String := "H" ++ s

/-- A pending request whose code is 123456 under `exHash`. -/
def exReq : OtpRequest :=
  { id := 1, user_id := "u", otp_hash := "H123456", expires_at := 1000,
    attempts := 0, max_attempts := 3, delivery_channel := .email,
    verified := false, created_at := 0 }

/-- A store holding `exReq` as the single pending request of voter u. -/
def exDb : DB :=
  { profiles := [{ id := "u", email := "u at example", phone := none,
                   verified := false }],
    elections := [], candidates := [], votes := [],
    otp_requests := [exReq], audit_logs := [] }

/-! ### Claims about OTP verification -/

/-- Claim C2: from attempts = 0 and max_attempts = 3, three successive
wrong 6-digit codes fail with invalid-code reporting 2, 1, 0 remaining
attempts, the counter reaching 3 (incremented on every call), and a
fourth call fails with attempts-exceeded regardless of its code. -/
theorem claim_C2 (hash : String → String) (now1 now2 now3 now4 : Int)
    (db : DB) (u o1 o2 o3 o4 : String) (r : OtpRequest)
    (hu : u ≠ "") (hp : pendingOf db u = [r])
    (ha : r.attempts = 0) (hm : r.max_attempts = 3)
    (hf1 : isSixDigits o1 = true) (hf2 : isSixDigits o2 = true)
    (hf3 : isSixDigits o3 = true) (hf4 : isSixDigits o4 = true)
    (he1 : ¬ r.expires_at < now1) (he2 : ¬ r.expires_at < now2)
    (he3 : ¬ r.expires_at < now3) (he4 : ¬ r.expires_at < now4)
    (hw1 : hash o1 ≠ r.otp_hash) (hw2 : hash o2 ≠ r.otp_hash)
    (hw3 : hash o3 ≠ r.otp_hash) :
    (verifyOtp hash now1 db u o1).1 = .err (.invalidCode 2)
    ∧ (verifyOtp hash now2 (verifyOtp hash now1 db u o1).2 u o2).1 =
        .err (.invalidCode 1)
    ∧ (verifyOtp hash now3
        (verifyOtp hash now2 (verifyOtp hash now1 db u o1).2 u o2).2 u o3).1 =
        .err (.invalidCode 0)
    ∧ (verifyOtp hash now4
        (verifyOtp hash now3
          (verifyOtp hash now2 (verifyOtp hash now1 db u o1).2 u o2).2 u o3).2
        u o4).1 = .err .attemptsExceeded
    ∧ (pendingOf
        (verifyOtp hash now3
          (verifyOtp hash now2 (verifyOtp hash now1 db u o1).2 u o2).2 u o3).2
        u).map OtpRequest.attempts = [3] := by
  have s1 := verifyOtp_wrong_step hash now1 db u o1 r hu hf1 hp he1
    (by rw [ha, hm]; norm_num) hw1
  have s2 := verifyOtp_wrong_step hash now2 (verifyOtp hash now1 db u o1).2
    u o2 { r with attempts := r.attempts + 1 } hu hf2 s1.2 he2
    (by show r.attempts + 1 < r.max_attempts; rw [ha, hm]; norm_num) hw2
  have s3 := verifyOtp_wrong_step hash now3
    (verifyOtp hash now2 (verifyOtp hash now1 db u o1).2 u o2).2
    u o3 { r with attempts := r.attempts + 1 + 1 } hu hf3 s2.2 he3
    (by show r.attempts + 1 + 1 < r.max_attempts; rw [ha, hm]; norm_num) hw3
  have hsel4 : latestUnverified
      (verifyOtp hash now3
        (verifyOtp hash now2 (verifyOtp hash now1 db u o1).2 u o2).2 u o3).2
      u = some { r with attempts := r.attempts + 1 + 1 + 1 } :=
    latestUnverified_of_pending _ _ _ s3.2
  have he4a : ¬ OtpRequest.expires_at
      { r with attempts := r.attempts + 1 + 1 + 1 } < now4 := he4
  have hatt4 : OtpRequest.max_attempts
        { r with attempts := r.attempts + 1 + 1 + 1 } ≤
      OtpRequest.attempts { r with attempts := r.attempts + 1 + 1 + 1 } := by
    show r.max_attempts ≤ r.attempts + 1 + 1 + 1
    rw [ha, hm]
  have s4 : (verifyOtp hash now4
      (verifyOtp hash now3
        (verifyOtp hash now2 (verifyOtp hash now1 db u o1).2 u o2).2 u o3).2
      u o4).1 = .err .attemptsExceeded := by
    rw [verifyOtp_selects hash now4 _ u o4
          { r with attempts := r.attempts + 1 + 1 + 1 } hu hf4 hsel4,
        verifyWith_exceeded hash now4 _ u o4
          { r with attempts := r.attempts + 1 + 1 + 1 } he4a hatt4]
  have r1 : ((r.max_attempts : Int) - (r.attempts : Int) - 1) = 2 := by
    rw [ha, hm]; norm_num
  have r2 : ((r.max_attempts : Int) - ((r.attempts + 1 : Nat) : Int) - 1) = 1 := by
    rw [ha, hm]; norm_num
  have r3 : ((r.max_attempts : Int) - ((r.attempts + 1 + 1 : Nat) : Int) - 1) = 0 := by
    rw [ha, hm]; norm_num
  refine ⟨?_, ?_, ?_, s4, ?_⟩
  · rw [s1.1, r1]
  · rw [s2.1]
    show VerifyResult.err (.invalidCode
      ((r.max_attempts : Int) - ((r.attempts + 1 : Nat) : Int) - 1)) = _
    rw [r2]
  · rw [s3.1]
    show VerifyResult.err (.invalidCode
      ((r.max_attempts : Int) - ((r.attempts + 1 + 1 : Nat) : Int) - 1)) = _
    rw [r3]
  · rw [s3.2]
    show [r.attempts + 1 + 1 + 1] = [3]
    rw [ha]

/-- Witness for claim C2 at a concrete store, hash and codes. -/
theorem claim_C2_witness :
    (verifyOtp exHash 500 exDb "u" "111111").1 = .err (.invalidCode 2)
    ∧ (verifyOtp exHash 500 (verifyOtp exHash 500 exDb "u" "111111").2
        "u" "222222").1 = .err (.invalidCode 1)
    ∧ (verifyOtp exHash 500
        (verifyOtp exHash 500 (verifyOtp exHash 500 exDb "u" "111111").2
          "u" "222222").2 "u" "333333").1 = .err (.invalidCode 0)
    ∧ (verifyOtp exHash 500
        (verifyOtp exHash 500
          (verifyOtp exHash 500 (verifyOtp exHash 500 exDb "u" "111111").2
            "u" "222222").2 "u" "333333").2 "u" "123456").1 =
        .err .attemptsExceeded
    ∧ (pendingOf
        (verifyOtp exHash 500
          (verifyOtp exHash 500 (verifyOtp exHash 500 exDb "u" "111111").2
            "u" "222222").2 "u" "333333").2 "u").map OtpRequest.attempts = [3] :=
  claim_C2 exHash 500 500 500 500 exDb "u" "111111" "222222" "333333" "123456"
    exReq (by decide) (by decide) (by decide) (by decide) (by decide)
    (by decide) (by decide) (by decide) (by decide) (by decide) (by decide)
    (by decide) (by decide) (by decide) (by decide)

/-- Claim C3: when the voter's matched pending request has expired, the
call fails with expired even for a correct code with attempts remaining,
the attempts table is left untouched, and an otp_failed audit event with
reason expired is appended. -/
theorem claim_C3 (hash : String → String) (now : Int) (db : DB)
    (u otp : String) (r : OtpRequest) (hu : u ≠ "")
    (hf : isSixDigits otp = true)
    (hsel : latestUnverified db u = some r) (hexp : r.expires_at < now) :
    (verifyOtp hash now db u otp).1 = .err .expired
    ∧ (verifyOtp hash now db u otp).2.otp_requests = db.otp_requests
    ∧ (verifyOtp hash now db u otp).2.audit_logs =
        ⟨.otp_failed, some u, .reason "expired"⟩ :: db.audit_logs := by
  rw [verifyOtp_selects hash now db u otp r hu hf hsel,
      verifyWith_expired hash now db u otp r hexp]
  exact ⟨rfl, rfl, rfl⟩

/-- Witness for claim C3: the stored code 123456 is submitted correctly,
attempts are 0 of 3, yet the request expired at 1000 < 2000. -/
theorem claim_C3_witness :
    (verifyOtp exHash 2000 exDb "u" "123456").1 = .err .expired
    ∧ (verifyOtp exHash 2000 exDb "u" "123456").2.otp_requests =
        exDb.otp_requests
    ∧ (verifyOtp exHash 2000 exDb "u" "123456").2.audit_logs =
        ⟨.otp_failed, some "u", .reason "expired"⟩ :: exDb.audit_logs :=
  claim_C3 exHash 2000 exDb "u" "123456" exReq (by decide) (by decide)
    (by decide) (by decide)

/-- Claim C4: a correct code on the first attempt against the voter's
single fresh pending request succeeds, marks that request verified and
the voter profile verified, and every later well-formed verification
call by that voter fails with no-pending-request. -/
theorem claim_C4 (hash : String → String) (now : Int) (db : DB)
    (u otp : String) (r : OtpRequest)
    (hu : u ≠ "") (hf : isSixDigits otp = true)
    (hp : pendingOf db u = [r])
    (ha : r.attempts = 0) (hm : r.max_attempts = 3)
    (hexp : ¬ r.expires_at < now) (hok : hash otp = r.otp_hash) :
    (verifyOtp hash now db u otp).1 = .ok
    ∧ (∀ q ∈ (verifyOtp hash now db u otp).2.otp_requests,
        q.id = r.id → q.verified = true)
    ∧ (∀ p ∈ (verifyOtp hash now db u otp).2.profiles,
        p.id = u → p.verified = true)
    ∧ (∀ now2 otp2, isSixDigits otp2 = true →
        (verifyOtp hash now2 (verifyOtp hash now db u otp).2 u otp2).1 =
          .err .noPendingRequest) := by
  have hatt : r.attempts < r.max_attempts := by rw [ha, hm]; norm_num
  rw [verifyOtp_selects hash now db u otp r hu hf
        (latestUnverified_of_pending db u r hp),
      verifyWith_correct hash now db u otp r hexp hatt hok]
  refine ⟨rfl, ?_, ?_, ?_⟩
  · intro q hq hid
    simp only [addAudit, setProfileVerified, setOtpVerified, updateAttempts,
      List.mem_map] at hq
    obtain ⟨x, _, hx⟩ := hq
    by_cases hxid : x.id = r.id
    · rw [← hx]
      simp [hxid]
    · rw [← hx] at hid
      simp only [hxid, if_neg, ite_false] at hid
  · intro p hpm hid
    simp only [addAudit, setProfileVerified, setOtpVerified, updateAttempts,
      List.mem_map] at hpm
    obtain ⟨x, _, hx⟩ := hpm
    by_cases hxid : x.id = u
    · rw [← hx]
      simp [hxid]
    · rw [← hx] at hid
      simp only [hxid, if_neg, ite_false] at hid
  · intro now2 otp2 hf2
    have hnone : pendingOf
        (addAudit
          (setProfileVerified
            (setOtpVerified (updateAttempts db r.id (r.attempts + 1)) r.id) u)
          ⟨.otp_verified, some u, .channel r.delivery_channel⟩) u = [] := by
      rw [pendingOf_addAudit, pendingOf_setProfileVerified,
          pendingOf_setOtpVerified, pendingOf_updateAttempts, hp]
      simp
    rw [verifyOtp_no_pending hash now2 _ u otp2 hu hf2
          (latestUnverified_of_no_pending _ _ hnone)]

/-- Witness for claim C4: the correct code succeeds at 500 < 1000 and a
later call finds nothing pending. -/
theorem claim_C4_witness :
    (verifyOtp exHash 500 exDb "u" "123456").1 = .ok
    ∧ (verifyOtp exHash 600 (verifyOtp exHash 500 exDb "u" "123456").2
        "u" "654321").1 = .err .noPendingRequest := by
  have h := claim_C4 exHash 500 exDb "u" "123456" exReq (by decide)
    (by decide) (by decide) (by decide) (by decide) (by decide) (by decide)
  exact ⟨h.1, h.2.2.2 600 "654321" (by decide)⟩

/-! ### Claims about vote casting -/

/-- A vote of voter u1 in election E1 used by the casting fixtures. -/
def c1Vote : Vote :=
  { id := 1, election_id := "E1", candidate_id := "C1a", user_id := "u1",
    ballot_token := "VT-A", cast_at := 50 }

/-- A store in which u1 has already voted in E1. -/
def c1Db : DB :=
  { profiles := [{ id := "u1", email := "a at example", phone := none,
                   verified := true }],
    elections := [{ id := "E1", title := "Board", status := .active,
                    start_time := 0, end_time := 100 }],
    candidates := [{ id := "C1a", election_id := "E1", name := "Ann",
                     position := 0 },
                   { id := "C1b", election_id := "E1", name := "Bob",
                     position := 1 }],
    votes := [c1Vote], otp_requests := [], audit_logs := [] }

/-- Claim C1: the `UNIQUE (user_id, election_id)` constraint of the
votes insert is the authoritative guard — casting preserves at most one
vote per (voter, election), and an insert rejected with duplicate-key
code 23505 because a row for the pair already exists is reported as
already-voted with the store unchanged. -/
theorem claim_C1 (db : DB) (now : Int) (newId : Nat) (u e c t : String)
    (hu : u ≠ "") (he : e ≠ "") (hc : c ≠ "") :
    (uniquePerVoterElection db.votes →
      uniquePerVoterElection (handleVoteSubmit db now newId u e c t).2.votes)
    ∧ ((∃ w ∈ db.votes, w.user_id = u ∧ w.election_id = e) →
        handleVoteSubmit db now newId u e c t = (.alreadyVoted, db)) := by
  have hguard : ¬ (c = "" ∨ u = "" ∨ e = "") := by simp [hu, he, hc]
  constructor
  · intro hinv
    unfold handleVoteSubmit
    rw [if_neg hguard]
    unfold insertVote
    by_cases hdup : db.votes.any fun w =>
        w.user_id == u && w.election_id == e
    · simp only [hdup, if_pos]
      exact hinv
    · simp only [Bool.not_eq_true] at hdup
      simp only [hdup]
      by_cases htok : db.votes.any fun w => w.ballot_token == t
      · simp only [htok, if_pos, Bool.false_eq_true, if_false]
        exact hinv
      · simp only [Bool.not_eq_true] at htok
        simp only [htok, Bool.false_eq_true, if_false]
        unfold uniquePerVoterElection at hinv ⊢
        refine List.Pairwise.cons ?_ hinv
        intro w hw hcontra
        obtain ⟨h1, h2⟩ := hcontra
        have h1a : w.user_id = u := h1.symm
        have h2a : w.election_id = e := h2.symm
        have hany : (db.votes.any fun x =>
            x.user_id == u && x.election_id == e) = true :=
          List.any_eq_true.mpr ⟨w, hw, by simp [h1a, h2a]⟩
        rw [hany] at hdup
        exact absurd hdup (by decide)
  · intro ⟨w, hw, hwu, hwe⟩
    unfold handleVoteSubmit
    rw [if_neg hguard]
    unfold insertVote
    have hdup : db.votes.any (fun w =>
        w.user_id == u && w.election_id == e) = true := by
      rw [List.any_eq_true]
      exact ⟨w, hw, by simp [hwu, hwe]⟩
    simp only [hdup, if_pos]

/-- Witness for claim C1: a store holding one vote of voter u1 in
election E1; a second cast by u1 in E1 is reported already-voted with
the store unchanged. -/
theorem claim_C1_witness :
    handleVoteSubmit c1Db 60 2 "u1" "E1" "C1b" "VT-B" = (.alreadyVoted, c1Db) :=
  (claim_C1 c1Db 60 2 "u1" "E1" "C1b" "VT-B" (by decide) (by decide)
    (by decide)).2 ⟨c1Vote, by decide, by decide, by decide⟩

/-- A store with two elections where candidate C2x belongs to E2 only,
and voter u1 has not voted in E1. -/
def c5Db : DB :=
  { profiles := [{ id := "u1", email := "a at example", phone := none,
                   verified := true }],
    elections := [{ id := "E1", title := "Board", status := .active,
                    start_time := 0, end_time := 100 },
                  { id := "E2", title := "Club", status := .active,
                    start_time := 0, end_time := 100 }],
    candidates := [{ id := "C2x", election_id := "E2", name := "Eve",
                     position := 0 }],
    votes := [], otp_requests := [], audit_logs := [] }

/-- Counterexample to claim C5: casting in E1 for candidate C2x — who
belongs to election E2, not E1 — succeeds and records the vote instead
of failing with an invalid-candidate error (no such check or error
exists in the casting path). -/
theorem claim_C5_counterexample :
    (handleVoteSubmit c5Db 50 1 "u1" "E1" "C2x" "VT-X").1 =
        .navigatedToReceipt "VT-X"
    ∧ (∃ v ∈ (handleVoteSubmit c5Db 50 1 "u1" "E1" "C2x" "VT-X").2.votes,
        v.candidate_id = "C2x" ∧ v.election_id = "E1")
    ∧ (∀ cd ∈ c5Db.candidates, cd.id = "C2x" → cd.election_id ≠ "E1") := by
  decide

/-- Claim C5 as amended: the casting operation itself performs no
candidate-to-election membership check and defines no invalid-candidate
error — any candidate id is inserted and the cast succeeds whenever the
uniqueness constraints allow it; the membership precondition holds only
by UI construction, since the vote page offers for selection exactly the
candidates fetched for the target election, all of whose rows carry that
election id. -/
theorem claim_C5_amended (db : DB) (now : Int) (newId : Nat)
    (u e c t : String) (hu : u ≠ "") (he : e ≠ "") (hc : c ≠ "")
    (hnodup : ∀ w ∈ db.votes, ¬ (w.user_id = u ∧ w.election_id = e))
    (htok : ∀ w ∈ db.votes, w.ballot_token ≠ t) :
    (handleVoteSubmit db now newId u e c t).1 = .navigatedToReceipt t
    ∧ (handleVoteSubmit db now newId u e c t).2.votes =
        { id := newId, election_id := e, candidate_id := c, user_id := u,
          ballot_token := t, cast_at := now } :: db.votes
    ∧ (∀ cd ∈ fetchCandidates db e, cd.election_id = e) := by
  have hguard : ¬ (c = "" ∨ u = "" ∨ e = "") := by simp [hu, he, hc]
  have hdup : (db.votes.any fun w =>
      w.user_id == u && w.election_id == e) = false := by
    rw [List.any_eq_false]
    intro w hw
    simp only [Bool.and_eq_true, beq_iff_eq, not_and]
    intro h1 h2
    exact hnodup w hw ⟨h1, h2⟩
  have htok2 : (db.votes.any fun w => w.ballot_token == t) = false := by
    rw [List.any_eq_false]
    intro w hw
    simp [htok w hw]
  refine ⟨?_, ?_, ?_⟩
  · unfold handleVoteSubmit insertVote
    rw [if_neg hguard]
    simp only [hdup, htok2, Bool.false_eq_true, if_false]
  · unfold handleVoteSubmit insertVote
    rw [if_neg hguard]
    simp only [hdup, htok2, Bool.false_eq_true, if_false]
  · intro cd hcd
    unfold fetchCandidates at hcd
    rw [List.mem_filter] at hcd
    exact beq_iff_eq.mp hcd.2

/-- Witness for the amended claim C5 at the concrete store. -/
theorem claim_C5_amended_witness :
    (handleVoteSubmit c5Db 50 1 "u1" "E1" "C2x" "VT-X").1 =
        .navigatedToReceipt "VT-X"
    ∧ (handleVoteSubmit c5Db 50 1 "u1" "E1" "C2x" "VT-X").2.votes =
        { id := 1, election_id := "E1", candidate_id := "C2x",
          user_id := "u1", ballot_token := "VT-X", cast_at := 50 } :: c5Db.votes
    ∧ (∀ cd ∈ fetchCandidates c5Db "E1", cd.election_id = "E1") :=
  claim_C5_amended c5Db 50 1 "u1" "E1" "C2x" "VT-X" (by decide) (by decide)
    (by decide) (by decide) (by decide)

/-! ### Claims about failure disclosure -/

/-- Counterexample to claim C6: a failing verification call — the
expired branch — whose JSON body carries no remaining-attempts field, so
not every failing call discloses the number of remaining attempts. -/
theorem claim_C6_counterexample :
    (verifyOtp exHash 2000 exDb "u" "123456").1 = .err .expired
    ∧ disclosedRemaining (verifyOtp exHash 2000 exDb "u" "123456").1 =
        none := by
  decide

/-- Claim C6 as amended: only the wrong-code failure discloses remaining
attempts (max_attempts - attempts - 1); the no-pending, expired and
attempts-exceeded failures disclose none; and a failing response never
depends on the stored hash value beyond its inequality with the hash of
the submitted code, so neither the correct code nor its hash can be read
off any failure response. -/
theorem claim_C6_amended (hash : String → String) (now : Int) (db : DB)
    (u otp : String) (hu : u ≠ "") (hf : isSixDigits otp = true) :
    (latestUnverified db u = none →
      (verifyOtp hash now db u otp).1 = .err .noPendingRequest
      ∧ disclosedRemaining (verifyOtp hash now db u otp).1 = none)
    ∧ (∀ r, latestUnverified db u = some r → r.expires_at < now →
        (verifyOtp hash now db u otp).1 = .err .expired
        ∧ disclosedRemaining (verifyOtp hash now db u otp).1 = none)
    ∧ (∀ r, latestUnverified db u = some r → ¬ r.expires_at < now →
        r.max_attempts ≤ r.attempts →
        (verifyOtp hash now db u otp).1 = .err .attemptsExceeded
        ∧ disclosedRemaining (verifyOtp hash now db u otp).1 = none)
    ∧ (∀ r, latestUnverified db u = some r → ¬ r.expires_at < now →
        r.attempts < r.max_attempts → hash otp ≠ r.otp_hash →
        (verifyOtp hash now db u otp).1 =
          .err (.invalidCode ((r.max_attempts : Int) - (r.attempts : Int) - 1))
        ∧ disclosedRemaining (verifyOtp hash now db u otp).1 =
          some ((r.max_attempts : Int) - (r.attempts : Int) - 1))
    ∧ (∀ db2 r r2, latestUnverified db u = some r →
        latestUnverified db2 u = some r2 →
        r2.expires_at = r.expires_at → r2.attempts = r.attempts →
        r2.max_attempts = r.max_attempts →
        hash otp ≠ r.otp_hash → hash otp ≠ r2.otp_hash →
        (verifyOtp hash now db u otp).1 = (verifyOtp hash now db2 u otp).1) := by
  refine ⟨?_, ?_, ?_, ?_, ?_⟩
  · intro hsel
    rw [verifyOtp_no_pending hash now db u otp hu hf hsel]
    exact ⟨rfl, rfl⟩
  · intro r hsel hexp
    rw [verifyOtp_selects hash now db u otp r hu hf hsel,
        verifyWith_expired hash now db u otp r hexp]
    exact ⟨rfl, rfl⟩
  · intro r hsel hexp hatt
    rw [verifyOtp_selects hash now db u otp r hu hf hsel,
        verifyWith_exceeded hash now db u otp r hexp hatt]
    exact ⟨rfl, rfl⟩
  · intro r hsel hexp hatt hw
    rw [verifyOtp_selects hash now db u otp r hu hf hsel,
        verifyWith_wrong hash now db u otp r hexp hatt hw]
    exact ⟨rfl, rfl⟩
  · intro db2 r r2 hsel hsel2 hexp2 hatt2 hmax2 hw hw2
    rw [verifyOtp_selects hash now db u otp r hu hf hsel,
        verifyOtp_selects hash now db2 u otp r2 hu hf hsel2]
    by_cases hexp : r.expires_at < now
    · rw [verifyWith_expired hash now db u otp r hexp,
          verifyWith_expired hash now db2 u otp r2 (by rw [hexp2]; exact hexp)]
    · by_cases hatt : r.max_attempts ≤ r.attempts
      · rw [verifyWith_exceeded hash now db u otp r hexp hatt,
            verifyWith_exceeded hash now db2 u otp r2
              (by rw [hexp2]; exact hexp) (by rw [hatt2, hmax2]; exact hatt)]
      · have hlt : r.attempts < r.max_attempts := Nat.not_le.mp hatt
        rw [verifyWith_wrong hash now db u otp r hexp hlt hw,
            verifyWith_wrong hash now db2 u otp r2
              (by rw [hexp2]; exact hexp)
              (by rw [hatt2, hmax2]; exact hlt) hw2]
        simp [hatt2, hmax2]

/-- Witness for the amended claim C6: the expired-failure branch at the
concrete store disclosing no remaining-attempts count. -/
theorem claim_C6_amended_witness :
    (verifyOtp exHash 2000 exDb "u" "999999").1 = .err .expired
    ∧ disclosedRemaining (verifyOtp exHash 2000 exDb "u" "999999").1 =
        none :=
  (claim_C6_amended exHash 2000 exDb "u" "999999" (by decide)
    (by decide)).2.1 exReq (by decide) (by decide)

/-! ### Helper lemmas for send-otp -/

theorem effResult_success (a : Bool) (r : SendResult) :
    (effResult a r).success = (a && r.success) := by
  cases a <;> simp [effResult]

theorem emailRes_success (emailSend : String → SendResult) (ch : Channel)
    (email : Option String) :
    (emailRes emailSend ch email).success =
      (emailAttempted ch email && (emailSend (email.getD "")).success) :=
  effResult_success _ _

theorem smsRes_success (smsSend : String → SendResult) (ch : Channel)
    (phone : Option String) :
    (smsRes smsSend ch phone).success =
      (smsAttempted ch phone &&
        (smsSend (formatPhone (phone.getD ""))).success) :=
  effResult_success _ _

theorem sendOtp_rateLimited (hash : String → String) (now : Int)
    (newId : Nat) (otp : String) (emailSend smsSend : String → SendResult)
    (insertOk : Bool) (db : DB) (u : String) (ch : Channel)
    (email phone : Option String) (hu : u ≠ "")
    (h5 : 5 ≤ recentCount db u now) :
    sendOtp hash now newId otp emailSend smsSend insertOk db u (some ch)
      email phone = (.err .rateLimited, db, []) := by
  simp only [sendOtp]
  rw [if_neg hu, if_pos h5]

theorem sendOtp_insert (hash : String → String) (now : Int) (newId : Nat)
    (otp : String) (emailSend smsSend : String → SendResult) (db : DB)
    (u : String) (ch : Channel) (email phone : Option String)
    (hu : u ≠ "") (h5 : ¬ 5 ≤ recentCount db u now) :
    sendOtp hash now newId otp emailSend smsSend true db u (some ch)
        email phone =
      ((if !(emailRes emailSend ch email).success &&
           !(smsRes smsSend ch phone).success then
          SendResp.err (.deliveryFailed
            (sendErrors emailSend smsSend ch email phone))
        else
          SendResp.ok (emailRes emailSend ch email).success
            (smsRes smsSend ch phone).success),
       addAudit
         { db with otp_requests :=
             newOtpRow hash now newId otp u ch :: db.otp_requests }
         ⟨.otp_sent, some u, .sent ch
           (emailRes emailSend ch email).success
           (smsRes smsSend ch phone).success
           (sendErrors emailSend smsSend ch email phone)⟩,
       sendDispatches otp ch email phone) := by
  simp only [sendOtp]
  rw [if_neg hu, if_neg h5]
  rfl

theorem respCase (a b : Bool) (E : List String) :
    ((∃ es ss, (if !a && !b then SendResp.err (.deliveryFailed E)
        else SendResp.ok a b) = .ok es ss) ↔ (a = true ∨ b = true))
    ∧ (¬ (a = true ∨ b = true) →
        (if !a && !b then SendResp.err (.deliveryFailed E)
         else SendResp.ok a b) = .err (.deliveryFailed E)) := by
  cases a <;> cases b <;> simp

/-! ### Claims about OTP issuance -/

/-- Claim C7: with five or more of the voter's requests created inside
the trailing 60 minutes, issuance is rejected rate-limited with the
store untouched and nothing dispatched; once the sliding window holds
fewer than five, issuance proceeds and succeeds when a requested
channel delivers. -/
theorem claim_C7 (hash : String → String) (now : Int) (newId : Nat)
    (otp : String) (emailSend smsSend : String → SendResult)
    (insertOk : Bool) (db : DB) (u : String) (ch : Channel)
    (email phone : Option String) (hu : u ≠ "") :
    (5 ≤ recentCount db u now →
      sendOtp hash now newId otp emailSend smsSend insertOk db u (some ch)
        email phone = (.err .rateLimited, db, []))
    ∧ (recentCount db u now < 5 →
        emailAttempted ch email = true →
        (emailSend (email.getD "")).success = true →
        (sendOtp hash now newId otp emailSend smsSend true db u (some ch)
          email phone).1 = .ok true (smsRes smsSend ch phone).success) := by
  constructor
  · intro h5
    exact sendOtp_rateLimited hash now newId otp emailSend smsSend insertOk
      db u ch email phone hu h5
  · intro h5 hatt hsucc
    rw [sendOtp_insert hash now newId otp emailSend smsSend db u ch email
          phone hu (Nat.not_le.mpr h5)]
    have he : (emailRes emailSend ch email).success = true := by
      rw [emailRes_success, hatt, hsucc]
      rfl
    simp [he]

/-- A store holding five fresh requests of voter u (rate-limit hit). -/
def rlDb : DB :=
  { profiles := [], elections := [], candidates := [], votes := [],
    otp_requests :=
      [{ exReq with id := 1 }, { exReq with id := 2 },
       { exReq with id := 3 }, { exReq with id := 4 },
       { exReq with id := 5 }],
    audit_logs := [] }

/-- A collaborator that always reports delivery success. -/
def eSendOk : String → SendResult := fun _ => ⟨true, none⟩

/-- A collaborator that always fails with error text boom. -/
def eSendFail : String → SendResult := fun _ => ⟨false, some "boom"⟩

/-- Witness for claim C7: the 6th request inside the hour is rejected;
the same request against a store with one recent row succeeds. -/
theorem claim_C7_witness :
    sendOtp exHash 1000 9 "123456" eSendOk eSendOk true rlDb "u"
      (some .email) (some "a at b") none = (.err .rateLimited, rlDb, [])
    ∧ (sendOtp exHash 1000 9 "123456" eSendOk eSendOk true exDb "u"
        (some .email) (some "a at b") none).1 = .ok true false := by
  have h1 := (claim_C7 exHash 1000 9 "123456" eSendOk eSendOk true rlDb "u"
    .email (some "a at b") none (by decide)).1 (by decide)
  have h2 := (claim_C7 exHash 1000 9 "123456" eSendOk eSendOk true exDb "u"
    .email (some "a at b") none (by decide)).2 (by decide) (by decide)
    (by decide)
  exact ⟨h1, h2.trans (by decide)⟩

/-- Claim C8: past the rate limit (and with the store accepting the
insert), the response is success exactly when some requested channel
reports delivery; when none does, it is delivery-failed carrying the
per-channel error detail; and in either case exactly the one new row —
attempts 0, max_attempts 3, expiry now + 5 minutes, unverified — is
persisted, independent of the delivery outcome. -/
theorem claim_C8 (hash : String → String) (now : Int) (newId : Nat)
    (otp : String) (emailSend smsSend : String → SendResult) (db : DB)
    (u : String) (ch : Channel) (email phone : Option String)
    (hu : u ≠ "") (h5 : recentCount db u now < 5) :
    ((∃ es ss, (sendOtp hash now newId otp emailSend smsSend true db u
        (some ch) email phone).1 = .ok es ss)
      ↔ ((emailAttempted ch email = true ∧
            (emailSend (email.getD "")).success = true)
         ∨ (smsAttempted ch phone = true ∧
            (smsSend (formatPhone (phone.getD ""))).success = true)))
    ∧ (sendOtp hash now newId otp emailSend smsSend true db u (some ch)
        email phone).2.1.otp_requests =
        newOtpRow hash now newId otp u ch :: db.otp_requests
    ∧ (¬ ((emailAttempted ch email = true ∧
            (emailSend (email.getD "")).success = true)
         ∨ (smsAttempted ch phone = true ∧
            (smsSend (formatPhone (phone.getD ""))).success = true)) →
        (sendOtp hash now newId otp emailSend smsSend true db u (some ch)
          email phone).1 =
          .err (.deliveryFailed (sendErrors emailSend smsSend ch email
            phone))) := by
  rw [sendOtp_insert hash now newId otp emailSend smsSend db u ch email
        phone hu (Nat.not_le.mpr h5)]
  have hE : ((emailRes emailSend ch email).success = true) ↔
      (emailAttempted ch email = true ∧
        (emailSend (email.getD "")).success = true) := by
    rw [emailRes_success, Bool.and_eq_true]
  have hS : ((smsRes smsSend ch phone).success = true) ↔
      (smsAttempted ch phone = true ∧
        (smsSend (formatPhone (phone.getD ""))).success = true) := by
    rw [smsRes_success, Bool.and_eq_true]
  have hcase := respCase (emailRes emailSend ch email).success
    (smsRes smsSend ch phone).success
    (sendErrors emailSend smsSend ch email phone)
  refine ⟨hcase.1.trans (or_congr hE hS), rfl, ?_⟩
  intro hno
  exact hcase.2 fun hor => hno (hor.imp hE.mp hS.mp)

/-- Witness for claim C8: both channels fail, the response carries both
error details, and the new row is persisted anyway. -/
theorem claim_C8_witness :
    (sendOtp exHash 1000 9 "123456" eSendFail eSendFail true exDb "u"
      (some .both) (some "a at b") (some "+15551234")).2.1.otp_requests =
        newOtpRow exHash 1000 9 "123456" "u" .both :: exDb.otp_requests
    ∧ (sendOtp exHash 1000 9 "123456" eSendFail eSendFail true exDb "u"
        (some .both) (some "a at b") (some "+15551234")).1 =
        .err (.deliveryFailed ["Email: boom", "SMS: boom"]) := by
  have h := claim_C8 exHash 1000 9 "123456" eSendFail eSendFail exDb "u"
    .both (some "a at b") (some "+15551234") (by decide) (by decide)
  exact ⟨h.2.1, (h.2.2 (by decide)).trans (by decide)⟩

/-- Claim C10: every dispatch's address comes from the request body
alone — the email address verbatim, the phone number after E.164
normalisation (identity on an already-normalised number) — the stored
voter profile is never consulted, and a requested channel whose address
is absent is silently skipped: no dispatch, attempt flag false, and with
the other channel delivering the call still succeeds. -/
theorem claim_C10 (hash : String → String) (now : Int) (newId : Nat)
    (otp : String) (emailSend smsSend : String → SendResult) (db : DB)
    (u : String) (ch : Channel) (email phone : Option String)
    (hu : u ≠ "") (h5 : recentCount db u now < 5) :
    (sendOtp hash now newId otp emailSend smsSend true db u (some ch)
        email phone).2.2 = sendDispatches otp ch email phone
    ∧ (∀ ps, (sendOtp hash now newId otp emailSend smsSend true
        { db with profiles := ps } u (some ch) email phone).2.2 =
        sendDispatches otp ch email phone)
    ∧ (email = none → emailAttempted ch email = false)
    ∧ (phone = none → smsAttempted ch phone = false)
    ∧ (ch = .both → email = none → smsAttempted ch phone = true →
        (smsSend (formatPhone (phone.getD ""))).success = true →
        (sendOtp hash now newId otp emailSend smsSend true db u (some ch)
          email phone).1 = .ok false true
        ∧ sendDispatches otp ch email phone =
            [Dispatch.sms (formatPhone (phone.getD "")) otp])
    ∧ (∀ p : String, p.trim = p → p.startsWith "+" = true →
        formatPhone p = p) := by
  have h5a : ¬ 5 ≤ recentCount db u now := Nat.not_le.mpr h5
  refine ⟨?_, ?_, ?_, ?_, ?_, ?_⟩
  · rw [sendOtp_insert hash now newId otp emailSend smsSend db u ch email
        phone hu h5a]
  · intro ps
    rw [sendOtp_insert hash now newId otp emailSend smsSend
        { db with profiles := ps } u ch email phone hu h5a]
  · intro he
    subst he
    simp [emailAttempted]
  · intro hp
    subst hp
    simp [smsAttempted]
  · intro hch he hatt hsucc
    subst hch
    subst he
    have hE : (emailRes emailSend .both none).success = false := by
      rw [emailRes_success]
      rfl
    have hS : (smsRes smsSend .both phone).success = true := by
      rw [smsRes_success, hatt, hsucc]
      rfl
    constructor
    · rw [sendOtp_insert hash now newId otp emailSend smsSend db u .both
            none phone hu h5a]
      simp [hE, hS]
    · unfold sendDispatches
      rw [hatt]
      simp [emailAttempted]
  · intro p hp hs
    unfold formatPhone
    rw [hp, if_pos hs]

/-- Witness for claim C10: channel both with the email address omitted;
only the SMS dispatch happens, to the request's number, and the call
succeeds. -/
theorem claim_C10_witness :
    (sendOtp exHash 1000 9 "123456" eSendFail eSendOk true exDb "u"
        (some .both) none (some "+15551234")).2.2 =
        sendDispatches "123456" .both none (some "+15551234")
    ∧ (sendOtp exHash 1000 9 "123456" eSendFail eSendOk true exDb "u"
        (some .both) none (some "+15551234")).1 = .ok false true
    ∧ sendDispatches "123456" .both none (some "+15551234") =
        [Dispatch.sms (formatPhone "+15551234") "123456"] := by
  have h := claim_C10 exHash 1000 9 "123456" eSendFail eSendOk exDb "u"
    .both none (some "+15551234") (by decide) (by decide)
  have h5 := h.2.2.2.2.1 rfl rfl (by decide) (by decide)
  exact ⟨h.1, h5.1, h5.2⟩

/-! ### Claim about receipt lookup -/

theorem filter_nil_of_all_false {α : Type} (p : α → Bool) (l : List α)
    (h : ∀ a ∈ l, p a = false) : l.filter p = [] := by
  induction l with
  | nil => rfl
  | cons a t ih =>
    rw [List.filter_cons, h a (List.mem_cons_self a t)]
    exact ih fun x hx => h x (List.mem_cons_of_mem a hx)

theorem fetchVoteRow_some (db : DB) (e u t : String) (v : Vote)
    (h : fetchVoteRow db e u t = some v) :
    v ∈ db.votes ∧ v.election_id = e ∧ v.user_id = u ∧
      v.ballot_token = t := by
  unfold fetchVoteRow at h
  cases hfil : db.votes.filter fun w =>
      w.election_id == e && w.user_id == u && w.ballot_token == t with
  | nil =>
    rw [hfil] at h
    exact absurd h (by simp)
  | cons x xs =>
    cases xs with
    | nil =>
      rw [hfil] at h
      simp only [Option.some.injEq] at h
      have hm : x ∈ db.votes.filter fun w =>
          w.election_id == e && w.user_id == u && w.ballot_token == t := by
        rw [hfil]
        exact List.mem_cons_self _ _
      have hm2 := List.mem_filter.mp hm
      have hp := hm2.2
      simp only [Bool.and_eq_true, beq_iff_eq] at hp
      rw [← h]
      exact ⟨hm2.1, hp.1.1, hp.1.2, hp.2⟩
    | cons y ys =>
      rw [hfil] at h
      exact absurd h (by simp)

/-- Claim C9: the receipt query returns details only for a stored vote
row matching the presented voter, election and ballot token all at
once; and under token uniqueness, the token of another voter's vote
retrieves nothing for the presenting voter. -/
theorem claim_C9 (db : DB) (e u t : String) :
    (∀ d, fetchVoteDetails db e u t = some d →
      ∃ v ∈ db.votes, v.election_id = e ∧ v.user_id = u ∧
        v.ballot_token = t ∧ d.ballot_token = v.ballot_token ∧
        d.cast_at = v.cast_at)
    ∧ (tokensUnique db.votes →
        ∀ v ∈ db.votes, v.user_id ≠ u →
          fetchVoteDetails db e u v.ballot_token = none) := by
  constructor
  · intro d hd
    unfold fetchVoteDetails at hd
    obtain ⟨v, hv, hdv⟩ := Option.map_eq_some'.mp hd
    obtain ⟨hmem, he2, hu2, ht2⟩ := fetchVoteRow_some db e u t v hv
    exact ⟨v, hmem, he2, hu2, ht2, by rw [← hdv], by rw [← hdv]⟩
  · intro huniq v hv hvu
    have hfil : (db.votes.filter fun w =>
        w.election_id == e && w.user_id == u &&
        w.ballot_token == v.ballot_token) = [] := by
      apply filter_nil_of_all_false
      intro w hw
      by_cases hwv : w = v
      · subst hwv
        have hb : (w.user_id == u) = false := by
          simp [hvu]
        simp [hb]
      · have hsymm : Symmetric fun a b : Vote =>
            a.ballot_token ≠ b.ballot_token := fun a b h q => h q.symm
        have hne : w.ballot_token ≠ v.ballot_token :=
          List.Pairwise.forall hsymm huniq hw hv hwv
        have hb : (w.ballot_token == v.ballot_token) = false := by
          simp [hne]
        simp [hb]
    unfold fetchVoteDetails fetchVoteRow
    rw [hfil]
    rfl

/-- Witness for claim C9 at the one-vote store: voter u2 presenting
u1's ballot token retrieves nothing. -/
theorem claim_C9_witness :
    fetchVoteDetails c1Db "E1" "u2" c1Vote.ballot_token = none :=
  (claim_C9 c1Db "E1" "u2" c1Vote.ballot_token).2
    (by simp [tokensUnique, c1Db]) c1Vote (by decide) (by decide)

end VoteSecure
